import Mathlib

/-!
Verification of the `VectraClient` HTTP core of the Vectra AI MCP server
(`vectra_client.py`): response classification and retry pipeline
(`_make_request`, lines 119-210), the token-bucket rate limiter
(`RateLimiter`, lines 52-81) and the auto-pagination loop
(`_get_all_pages`, lines 212-299).

Modelling conventions (shallow embedding):
* JSON values are the inductive `JVal`; an HTTP response is `HttpResponse`,
  carrying the status code, content type, raw text and the result of
  attempting to parse the text as JSON (`json?`, `none` when
  `response.json()` would raise `json.JSONDecodeError`).
* Python exceptions that can cross `_make_request`'s boundary are the
  inductive `PyExn`; `isinstance(e, VectraAPIError)` is the predicate
  `isVectraAPIErrorInstance`.
* Python float arithmetic in the rate limiter is modelled over `ℚ`
  (IEEE rounding is not modelled); wall-clock readings `time.time()`
  are explicit `ℚ` inputs.
* The network is an oracle: `_make_request`'s transport layer is a function
  from the (1-based) attempt number to either an `httpx` exception or an
  `HttpResponse`; `_get_all_pages`'s fetches are a function from the
  current `page` parameter to the outcome of `_make_request`.
-/

namespace VectraVerify

/-- JSON-like values, the payloads moved by the client. -/
inductive JVal where
  | jnull : JVal
  | jbool : Bool → JVal
  | jnum : Int → JVal
  | jstr : String → JVal
  | jarr : List JVal → JVal
  | jobj : List (String × JVal) → JVal

/-- Field lookup on a JSON object (first binding wins); `none` when the
value is not an object or the key is absent — Python `dict.get(k)`. -/
def jget : JVal → String → Option JVal
  | .jobj fields, k => (fields.find? (fun p => p.1 = k)).map (·.2)
  | _, _ => none

/-- Python `dict.get(k, default)`. -/
def jgetD (v : JVal) (k : String) (d : JVal) : JVal :=
  (jget v k).getD d

/-- Key-membership test on an object field list. -/
def jhasKey (fields : List (String × JVal)) (k : String) : Bool :=
  fields.any (fun p => p.1 = k)

mutual

/-- Rendering of a JSON value by a Python f-string, `f"{v}"`.  Exact for
strings, integers, booleans and `None` (the cases the error path meets in
practice); list/dict reprs are rendered json-style, approximating Python
repr quoting. -/
def pyFStr : JVal → String
  | .jnull => "None"
  | .jbool b => cond b "True" "False"
  | .jnum n => toString n
  | .jstr s => s
  | .jarr xs => "[" ++ pyFStrItems xs ++ "]"
  | .jobj fs => "\x7b" ++ pyFStrFields fs ++ "\x7d"

def pyFStrItems : List JVal → String
  | [] => ""
  | [x] => pyFStr x
  | x :: y :: xs => pyFStr x ++ ", " ++ pyFStrItems (y :: xs)

def pyFStrFields : List (String × JVal) → String
  | [] => ""
  | [p] => p.1 ++ ": " ++ pyFStr p.2
  | p :: q :: fs => p.1 ++ ": " ++ pyFStr p.2 ++ ", " ++ pyFStrFields (q :: fs)

end

/-- One HTTP response as `httpx` hands it to `_make_request`:
status code, `content-type` header value, body text, and the outcome of
parsing the body as JSON (`none` when `response.json()` raises). -/
structure HttpResponse where
  status : Nat
  contentType : String
  text : String
  jsonBody : Option JVal

/-- Exceptions that can cross `_make_request`'s boundary.  The four
`vectra*` constructors are the classes of `vectra_client.py` lines 16-37
(each carries its message and optional `status_code`; `vectraAPIError`
additionally carries `response_data`).  `jsonDecodeError` is
`json.JSONDecodeError` escaping from `response.json()` on line 203;
`httpxRaised` and `retryError` model raw `httpx` exceptions and
`tenacity.RetryError`, neither of which any execution actually produces
(proved below). -/
inductive HttpxExn where
  | connectError : String → HttpxExn
  | timeoutException : String → HttpxExn
  | httpStatusError : Nat → String → HttpxExn
  | otherRequestError : String → HttpxExn

inductive PyExn where
  | vectraAuthenticationError : String → Option Nat → PyExn
  | vectraNotFoundError : String → Option Nat → PyExn
  | vectraRateLimitError : String → Option Nat → PyExn
  | vectraAPIError : String → Option Nat → Option JVal → PyExn
  | jsonDecodeError : PyExn
  | httpxRaised : HttpxExn → PyExn
  | retryError : PyExn

/-- Python `isinstance(e, VectraAPIError)`: the three named subclasses and
the base class itself (lines 16-37). -/
def isVectraAPIErrorInstance : PyExn → Bool
  | .vectraAuthenticationError _ _ => true
  | .vectraNotFoundError _ _ => true
  | .vectraRateLimitError _ _ => true
  | .vectraAPIError _ _ _ => true
  | _ => false

/-- The `status_code` attribute carried by the exception, when any. -/
def pyExnStatus : PyExn → Option Nat
  | .vectraAuthenticationError _ s => s
  | .vectraNotFoundError _ s => s
  | .vectraRateLimitError _ s => s
  | .vectraAPIError _ s _ => s
  | _ => none

/-- `httpx.Response.is_success`: 2xx. -/
def isSuccessStatus (st : Nat) : Bool :=
  200 ≤ st && st < 300

/-- List-of-characters test: `pat` occurs at the head of `s`. -/
def charsStartWith : List Char → List Char → Bool
  | [], _ => true
  | _ :: _, [] => false
  | p :: ps, c :: cs => p = c && charsStartWith ps cs

/-- Substring occurrence on character lists (Python `sub in s` for `str`). -/
def charsContain (pat : List Char) : List Char → Bool
  | [] => charsStartWith pat []
  | c :: cs => charsStartWith pat (c :: cs) || charsContain pat cs

/-- `content-type` starts with `application/json` (line 202). -/
def isJsonContentType (ct : String) : Bool :=
  charsStartWith "application/json".toList ct.toList

/-- Python `"message" in error_data` (line 190): key test on a dict,
element test on a list, substring test on a string, `TypeError` (modelled
as `Except.error`) on scalars. -/
def pyContainsMessage : JVal → Except Unit Bool
  | .jobj fs => .ok (jhasKey fs "message")
  | .jarr xs => .ok (xs.any (fun x => match x with
      | .jstr t => t = "message"
      | _ => false))
  | .jstr s => .ok (charsContain "message".toList s.toList)
  | _ => .error ()

/-- Python `error_data["message"]` (line 191): dict lookup; `TypeError`
on a list or string subscripted with a string key. -/
def pySubscriptMessage : JVal → Except Unit JVal
  | .jobj fs => .ok (((fs.find? (fun p => p.1 = "message")).map (·.2)).getD .jnull)
  | _ => .error ()

/-- Response handling of `_make_request`, lines 166-205: the status-code
classification chain, the generic non-2xx error-message construction
(including the bare `except:` of line 192, which appends the raw text
whenever JSON parsing or the `message` access raises), and the 2xx
JSON/non-JSON return paths. -/
def handleResponse (r : HttpResponse) : Except PyExn JVal :=
  if r.status = 401 then
    .error (.vectraAuthenticationError "Authentication failed - check credentials" (some 401))
  else if r.status = 403 then
    .error (.vectraAuthenticationError "Access forbidden - insufficient permissions" (some 403))
  else if r.status = 404 then
    .error (.vectraNotFoundError "Resource not found" (some 404))
  else if r.status = 429 then
    .error (.vectraRateLimitError "Rate limit exceeded" (some 429))
  else if !(isSuccessStatus r.status) then
    let base := "API request failed with status " ++ toString r.status
    match r.jsonBody with
    | none =>
        .error (.vectraAPIError (base ++ ": " ++ r.text) (some r.status) none)
    | some j =>
        match pyContainsMessage j with
        | .error () =>
            .error (.vectraAPIError (base ++ ": " ++ r.text) (some r.status) (some j))
        | .ok true =>
            match pySubscriptMessage j with
            | .ok v =>
                .error (.vectraAPIError (base ++ ": " ++ pyFStr v) (some r.status) (some j))
            | .error () =>
                .error (.vectraAPIError (base ++ ": " ++ r.text) (some r.status) (some j))
        | .ok false =>
            .error (.vectraAPIError base (some r.status) (some j))
  else if isJsonContentType r.contentType then
    match r.jsonBody with
    | some j => .ok j
    | none => .error .jsonDecodeError
  else
    .ok (.jobj [("data", .jstr r.text)])

/-- The `try:` body and `except` clauses of `_make_request`
(lines 155-210) for one underlying attempt.  `httpx.ConnectError` and
`httpx.TimeoutException` are subclasses of `httpx.RequestError`
(and `httpx.HTTPStatusError` is not), so every transport failure is caught
by line 209 and re-raised as a plain `VectraAPIError` with no status code;
a received response goes through `handleResponse`, whose `Vectra*` and
JSON-decode exceptions are not `httpx` errors and propagate unchanged. -/
def attemptBody : Except HttpxExn HttpResponse → Except PyExn JVal
  | .ok r => handleResponse r
  | .error (.httpStatusError st m) =>
      .error (.vectraAPIError ("HTTP error: " ++ m) (some st) none)
  | .error (.connectError m) =>
      .error (.vectraAPIError ("Request error: " ++ m) none none)
  | .error (.timeoutException m) =>
      .error (.vectraAPIError ("Request error: " ++ m) none none)
  | .error (.otherRequestError m) =>
      .error (.vectraAPIError ("Request error: " ++ m) none none)

/-- Tenacity predicate of line 122,
`retry_if_exception_type((httpx.ConnectError, httpx.TimeoutException))`:
`isinstance` against exactly those two classes. -/
def retryPred : PyExn → Bool
  | .httpxRaised (.connectError _) => true
  | .httpxRaised (.timeoutException _) => true
  | _ => false

/-- Tenacity `wait_exponential(multiplier=1, min=1, max=10)` (line 121) per
its documentation: the wait before retrying the `n`-th failed attempt is
`multiplier * 2 ^ (n - 1)` clamped into `[min, max]`; with these arguments
1s, 2s, 4s, 8s, 10s, 10s, ...  No execution ever sleeps here (proved
below), so nothing downstream depends on this formula. -/
def waitExp (attemptNumber : Nat) : ℚ :=
  max 1 (min ((2 : ℚ) ^ (attemptNumber - 1)) 10)

/-- Outcome of running the retrying `_make_request` against the transport
oracle: the value returned or exception raised, the number of underlying
attempts made, and the backoff sleeps performed between attempts. -/
structure RunOutcome where
  result : Except PyExn JVal
  attemptsMade : Nat
  sleeps : List ℚ

/-- Tenacity's retry loop for the decorator of lines 119-123:
run the attempt; on a raised exception matching `retryPred`, sleep the
exponential backoff and try again while `stop_after_attempt(3)` allows
(remaining retries are the fuel), raising `RetryError` once it does not;
a non-matching exception is re-raised immediately. -/
def retryLoop (att : Nat → Except HttpxExn HttpResponse) :
    Nat → Nat → List ℚ → RunOutcome
  | fuel, n, acc =>
    match attemptBody (att n) with
    | .ok v => ⟨.ok v, n, acc.reverse⟩
    | .error e =>
        if retryPred e then
          match fuel with
          | 0 => ⟨.error .retryError, n, acc.reverse⟩
          | Nat.succ fuel2 => retryLoop att fuel2 (n + 1) (waitExp n :: acc)
        else ⟨.error e, n, acc.reverse⟩

/-- `_make_request` as a whole, abstracted over the transport oracle `att`
(1-based attempt number ↦ what `self.client.request` does on that
attempt): at most 3 total attempts. -/
def makeRequest (att : Nat → Except HttpxExn HttpResponse) : RunOutcome :=
  retryLoop att 2 1 []

/-- The mutable state of `RateLimiter` (lines 52-60): the configured
budget (`requests_per_period`, `period`) and the bucket
(`tokens`, `last_update`).  Float arithmetic is modelled over `ℚ`. -/
structure RL where
  requestsPerPeriod : Nat
  period : Nat
  tokens : ℚ
  lastUpdate : ℚ

/-- `RateLimiter.__init__`: the bucket starts full at clock reading `t0`. -/
def mkRateLimiter (requestsPerPeriod period : Nat) (t0 : ℚ) : RL :=
  ⟨requestsPerPeriod, period, requestsPerPeriod, t0⟩

/-- `RateLimiter.acquire` (lines 62-81), with the wall clock passed in
explicitly: returns the state after the call and the duration of the
`asyncio.sleep`, 0 when no sleep occurs. -/
def acquire (s : RL) (now : ℚ) : RL × ℚ :=
  let timePassed := now - s.lastUpdate
  let tokens2 := min (s.requestsPerPeriod : ℚ)
    (s.tokens + timePassed * s.requestsPerPeriod / s.period)
  if tokens2 < 1 then
    (⟨s.requestsPerPeriod, s.period, 0, now⟩,
      (1 - tokens2) * s.period / s.requestsPerPeriod)
  else
    (⟨s.requestsPerPeriod, s.period, tokens2 - 1, now⟩, 0)

/-- Modelled from the spec: the acquisition algorithm as the spec words it
— compute elapsed time since the last refill, replenish by
`elapsed * capacity / refillPeriodSeconds` capped at `capacity`; if the
resulting tokens are below 1, suspend exactly
`(1 - tokens) * refillPeriodSeconds / capacity` and set the tokens to 0,
otherwise decrement by 1 with no suspension. -/
def specAcquire (s : RL) (now : ℚ) : RL × ℚ :=
  let elapsed := now - s.lastUpdate
  let replenished := min (s.requestsPerPeriod : ℚ)
    (s.tokens + elapsed * s.requestsPerPeriod / s.period)
  if replenished < 1 then
    (⟨s.requestsPerPeriod, s.period, 0, now⟩,
      (1 - replenished) * s.period / s.requestsPerPeriod)
  else
    (⟨s.requestsPerPeriod, s.period, replenished - 1, now⟩, 0)

/-- States visited by a sequence of acquisitions: the initial state and
the state after each call, the calls happening at the given clock
readings. -/
def rlStates (s : RL) : List ℚ → List RL
  | [] => [s]
  | now :: rest => s :: rlStates (acquire s now).1 rest

/-- The bucket invariant of the spec: `0 <= availableTokens <= capacity`. -/
def rlInv (s : RL) : Prop :=
  0 ≤ s.tokens ∧ s.tokens ≤ (s.requestsPerPeriod : ℚ)

/-- Observable events of one `acquire` call, in program order, for the
lock-discipline analysis. -/
inductive RLEvent where
  | lockAcquire : RLEvent
  | setTokens : ℚ → RLEvent
  | sleep : ℚ → RLEvent
  | lockRelease : RLEvent

/-- Event trace of `RateLimiter.acquire` as written (lines 62-81): the
whole body, including the `asyncio.sleep`, runs inside
`async with self._lock`. -/
def acquireTrace (s : RL) (now : ℚ) : List RLEvent :=
  let timePassed := now - s.lastUpdate
  let tokens2 := min (s.requestsPerPeriod : ℚ)
    (s.tokens + timePassed * s.requestsPerPeriod / s.period)
  if tokens2 < 1 then
    [.lockAcquire, .setTokens tokens2,
      .sleep ((1 - tokens2) * s.period / s.requestsPerPeriod),
      .setTokens 0, .lockRelease]
  else
    [.lockAcquire, .setTokens tokens2, .setTokens (tokens2 - 1), .lockRelease]

/-- A `sleep` event occurs while the (single) lock is held: scan the trace
tracking the held flag. -/
def sleepsWhileLocked : Bool → List RLEvent → Bool
  | _, [] => false
  | _, .lockAcquire :: t => sleepsWhileLocked true t
  | _, .lockRelease :: t => sleepsWhileLocked false t
  | held, .sleep _ :: t => held || sleepsWhileLocked held t
  | held, .setTokens _ :: t => sleepsWhileLocked held t

/-- The replenished token count `acquire` computes before branching. -/
def replenishedOf (s : RL) (now : ℚ) : ℚ :=
  min (s.requestsPerPeriod : ℚ)
    (s.tokens + (now - s.lastUpdate) * s.requestsPerPeriod / s.period)

/-- Split a character list on every occurrence of `sep`
(Python `str.split(sep)`). -/
def charsSplitOn (sep : Char) : List Char → List (List Char)
  | [] => [[]]
  | c :: cs =>
      if c = sep then [] :: charsSplitOn sep cs
      else
        match charsSplitOn sep cs with
        | [] => [[c]]
        | g :: gs => (c :: g) :: gs

/-- Everything after the first occurrence of `sep`, `none` when `sep` does
not occur (Python `str.split(sep, 1)` having produced two parts). -/
def charsAfterFirst (sep : Char) : List Char → Option (List Char)
  | [] => none
  | c :: cs => if c = sep then some cs else charsAfterFirst sep cs

/-- The query component `urlparse` extracts: the part after the first `?`,
with the fragment (everything from the first `#`) removed first.
Percent-decoding and `+`-decoding of `parse_qs` are not modelled; the
URLs in the theorems below use neither. -/
def urlQueryChars (url : String) : List Char :=
  let noFragment := url.toList.takeWhile (fun c => c ≠ '#')
  match charsAfterFirst '?' noFragment with
  | none => []
  | some q => q

/-- The values `parse_qs(query)[key]` collects, in order: split the query
on `&`, keep the pairs whose part before the first `=` equals `key` and
whose part after it is non-empty (`keep_blank_values` is false, so blank
values and `=`-less fields are dropped). -/
def qsValuesFor (key : List Char) (q : List Char) : List (List Char) :=
  (charsSplitOn '&' q).filterMap (fun pair =>
    match charsAfterFirst '=' pair with
    | none => none
    | some v =>
        if pair.takeWhile (fun c => c ≠ '=') = key ∧ v ≠ [] then some v
        else none)

/-- Decimal digit-string value. -/
def digitsVal : List Char → Option Nat
  | [] => none
  | ds =>
      if ds.all (fun c => c.isDigit) then
        some (ds.foldl (fun a c => a * 10 + (c.toNat - 48)) 0)
      else none

/-- Python `int(s)` on a string: optional surrounding whitespace, optional
sign, decimal digits; `none` models the `ValueError` (underscore
separators and non-ASCII digits, which Python also accepts, are not
modelled; no theorem below depends on them). -/
def pyToInt (cs : List Char) : Option Int :=
  let t := cs.dropWhile (fun c => c = ' ')
  let t := (t.reverse.dropWhile (fun c => c = ' ')).reverse
  match t with
  | '-' :: ds => (digitsVal ds).map (fun n => -(n : Int))
  | '+' :: ds => (digitsVal ds).map (fun n => (n : Int))
  | ds => (digitsVal ds).map (fun n => (n : Int))

/-- Lines 269-283 of `_get_all_pages`: extract the `page` query parameter
from a `next` URL.  `none` is every way the loop breaks there — no `page`
parameter in the URL (line 279) or `int()` raising `ValueError`
(line 281); both produce the same observable `break`. -/
def nextPageOfUrl (url : String) : Option Int :=
  match qsValuesFor "page".toList (urlQueryChars url) with
  | [] => none
  | v :: _ => pyToInt v

/-- Python truthiness test `not x` on an optional JSON value
(line 265, `if not next_url`); absent keys give `None`. -/
def pyFalsy : Option JVal → Bool
  | none => true
  | some .jnull => true
  | some (.jbool b) => !b
  | some (.jnum n) => n = 0
  | some (.jstr s) => s.isEmpty
  | some (.jarr xs) => xs.isEmpty
  | some (.jobj fs) => fs.isEmpty

/-- Python iteration of a JSON value, as `list.extend` consumes it
(line 258): a list yields its items, a string its characters, a dict its
keys; scalars raise `TypeError` (`none`), which the outer
`except Exception` turns into a `break` with the accumulator unchanged. -/
def pyIter : JVal → Option (List JVal)
  | .jarr xs => some xs
  | .jstr s => some (s.toList.map (fun c => .jstr (String.singleton c)))
  | .jobj fs => some (fs.map (fun p => .jstr p.1))
  | _ => none

/-- Line 252: the response is a paginated shape — a dict containing a
`results` key. -/
def isPaginated : JVal → Bool
  | .jobj fs => jhasKey fs "results"
  | _ => false

/-- The combined response `_get_all_pages` builds (lines 294-299). -/
def envelope (xs : List JVal) : JVal :=
  .jobj [("count", .jnum xs.length), ("next", .jnull),
    ("previous", .jnull), ("results", .jarr xs)]

/-- Outcome of one `_get_all_pages` run: the returned value, the final
`pages_fetched` counter, and how many times `_make_request` was invoked. -/
structure PagRun where
  result : JVal
  pagesFetched : Nat
  fetchCalls : Nat

/-- The `while pages_fetched < max_pages` loop of `_get_all_pages`
(lines 247-299), abstracted over the fetch oracle `fetch` (current `page`
parameter ↦ what `_make_request` returns or raises; the other parameters
never change during the loop).  The fuel is `max_pages - pages_fetched`:
`pages_fetched` grows by exactly 1 on every iteration that continues, so
this recursion is the loop.  Every exception from a fetch, from extending
the accumulator or from parsing the `next` URL is caught (lines 281-288)
and breaks out to the envelope of what was gathered so far. -/
def getAllPagesLoop (fetch : Option Int → Except PyExn JVal) :
    Nat → Option Int → List JVal → Nat → Nat → PagRun
  | 0, _, acc, pf, fc => ⟨envelope acc, pf, fc⟩
  | Nat.succ fuel, page, acc, pf, fc =>
    match fetch page with
    | .error _ => ⟨envelope acc, pf, fc + 1⟩
    | .ok resp =>
        if isPaginated resp then
          match pyIter (jgetD resp "results" (.jarr [])) with
          | none => ⟨envelope acc, pf, fc + 1⟩
          | some items =>
              let acc2 := acc ++ items
              let nxt := jget resp "next"
              if pyFalsy nxt then ⟨envelope acc2, pf + 1, fc + 1⟩
              else
                match nxt with
                | some (.jstr url) =>
                    match nextPageOfUrl url with
                    | some n =>
                        getAllPagesLoop fetch fuel (some n) acc2 (pf + 1) (fc + 1)
                    | none => ⟨envelope acc2, pf + 1, fc + 1⟩
                | _ => ⟨envelope acc2, pf + 1, fc + 1⟩
        else ⟨resp, pf, fc + 1⟩

/-- `_get_all_pages` (lines 212-299): any initial `page` parameter has
been stripped (line 243), so the first fetch carries none. -/
def getAllPages (fetch : Option Int → Except PyExn JVal)
    (maxPages : Nat := 1000) : PagRun :=
  getAllPagesLoop fetch maxPages none [] 0 0

/-- The items the run gathers from this point on, page by page in fetch
order — the same recursion as `getAllPagesLoop`, keeping only the list of
collected items.  Used to state that the envelope holds exactly the
concatenation of the fetched pages. -/
def collectItems (fetch : Option Int → Except PyExn JVal) :
    Nat → Option Int → List JVal
  | 0, _ => []
  | Nat.succ fuel, page =>
    match fetch page with
    | .error _ => []
    | .ok resp =>
        if isPaginated resp then
          match pyIter (jgetD resp "results" (.jarr [])) with
          | none => []
          | some items =>
              let nxt := jget resp "next"
              if pyFalsy nxt then items
              else
                match nxt with
                | some (.jstr url) =>
                    match nextPageOfUrl url with
                    | some n => items ++ collectItems fetch fuel (some n)
                    | none => items
                | _ => items
        else []

/-- Modelled from the spec: the `ApiOutcome` tagged variant of the data
model — `Success | AuthError | ForbiddenError | NotFoundError |
RateLimitedError | GenericApiError(statusCode, message)` (the
`TransportError` variant plays no role in response classification). -/
inductive SpecOutcome where
  | success : JVal → SpecOutcome
  | authError : String → SpecOutcome
  | forbiddenError : String → SpecOutcome
  | notFoundError : String → SpecOutcome
  | rateLimitedError : String → SpecOutcome
  | genericApiError : Nat → String → SpecOutcome

/-- Whether the JSON body contains a `message` field, per the spec wording
"if the body is JSON containing a `message` field". -/
def specMessageOf (body : Option JVal) : Option String :=
  match body with
  | some j => (jget j "message").map pyFStr
  | none => none

/-- Modelled from the spec: the exact status classification of the
Request Executor — 401 `AuthError`, 403 `ForbiddenError`, 404
`NotFoundError`, 429 `RateLimitedError`, any other non-2xx
`GenericApiError` with the status code and the body's `message` field
appended when the body is JSON containing one, the raw response text
appended otherwise; 2xx JSON content-type `Success(parsed body)`, 2xx
non-JSON `Success` wrapping the raw text under a single field.  The base
message text for the generic case is taken from the source (the spec
fixes only what is appended to it), and a 2xx JSON response with an
unparseable body, which the spec does not cover, is `none`. -/
def specClassify (r : HttpResponse) : Option SpecOutcome :=
  if r.status = 401 then some (.authError "Authentication failed - check credentials")
  else if r.status = 403 then some (.forbiddenError "Access forbidden - insufficient permissions")
  else if r.status = 404 then some (.notFoundError "Resource not found")
  else if r.status = 429 then some (.rateLimitedError "Rate limit exceeded")
  else if !(isSuccessStatus r.status) then
    some (.genericApiError r.status
      ("API request failed with status " ++ toString r.status ++
        match specMessageOf r.jsonBody with
        | some m => ": " ++ m
        | none => ": " ++ r.text))
  else if isJsonContentType r.contentType then
    (r.jsonBody).map .success
  else
    some (.success (.jobj [("data", .jstr r.text)]))

/-- Abstraction of the code's outcome into the spec's tagged variant: the
Python class of the raised exception determines the variant (that is what
a tagged variant means for a caller dispatching on the exception type);
the message and, for the generic class, the carried status code are kept.
Outcomes outside the spec's taxonomy map to `none`. -/
def codeToSpec : Except PyExn JVal → Option SpecOutcome
  | .ok v => some (.success v)
  | .error (.vectraAuthenticationError m _) => some (.authError m)
  | .error (.vectraNotFoundError m _) => some (.notFoundError m)
  | .error (.vectraRateLimitError m _) => some (.rateLimitedError m)
  | .error (.vectraAPIError m st _) => some (.genericApiError (st.getD 0) m)
  | .error _ => none

/-- Transport oracle of the spec's retry scenario: `httpx.ConnectError` on
attempts 1 and 2, a well-formed 200 response on attempt 3. -/
def c1Attempts : Nat → Except HttpxExn HttpResponse := fun n =>
  if n = 3 then .ok ⟨200, "application/json", "t", some (.jobj [("ok", .jbool true)])⟩
  else .error (.connectError "boom")

/-- Fetch oracle of the spec's aggregation scenario: three pages of two
items each, the first two carrying `next` links with a `page` parameter,
the third carrying `next: null`. -/
def fetch3 : Option Int → Except PyExn JVal := fun p =>
  match p with
  | none => .ok (.jobj [("results", .jarr [.jnum 1, .jnum 2]),
      ("next", .jstr "https://a/x?page=2")])
  | some 2 => .ok (.jobj [("results", .jarr [.jnum 3, .jnum 4]),
      ("next", .jstr "https://a/x?page=3")])
  | some 3 => .ok (.jobj [("results", .jarr [.jnum 5, .jnum 6]),
      ("next", .jnull)])
  | _ => .error .retryError

/-- Fetch oracle whose `next` link never becomes null: every page has one
item and a parsable `next` URL. -/
def endlessFetch : Option Int → Except PyExn JVal := fun _ =>
  .ok (.jobj [("results", .jarr [.jnum 7]), ("next", .jstr "https://a/x?page=2")])

/-- Every exception `handleResponse` raises is one of the `Vectra*`
classes or the JSON decode error of line 203. -/
theorem handleResponse_error_shape (r : HttpResponse) (e : PyExn)
    (h : handleResponse r = .error e) :
    isVectraAPIErrorInstance e = true ∨ e = .jsonDecodeError := by
  unfold handleResponse at h
  repeat' split at h
  all_goals cases h
  all_goals simp [isVectraAPIErrorInstance]

/-- No `VectraAPIError` instance matches the tenacity retry predicate. -/
theorem retryPred_of_instance (e : PyExn) (h : isVectraAPIErrorInstance e = true) :
    retryPred e = false := by
  cases e <;> simp_all [isVectraAPIErrorInstance, retryPred]

/-- No exception the `try` body of `_make_request` can raise matches the
retry predicate: the `except httpx.RequestError` clause has already
rewrapped every transport failure as `VectraAPIError`. -/
theorem attemptBody_not_retryable (a : Except HttpxExn HttpResponse) (e : PyExn)
    (h : attemptBody a = .error e) : retryPred e = false := by
  cases a with
  | ok r =>
      rcases handleResponse_error_shape r e h with hv | hj
      · exact retryPred_of_instance e hv
      · rw [hj]; rfl
  | error ex => cases ex <;> (simp only [attemptBody] at h; cases h; rfl)

/-- Consequently the retry loop always finishes on the first attempt, with
no backoff sleeps: `_make_request` is `attemptBody` on attempt 1. -/
theorem makeRequest_result (att : Nat → Except HttpxExn HttpResponse) :
    makeRequest att = ⟨attemptBody (att 1), 1, []⟩ := by
  have h0 : makeRequest att = retryLoop att 2 1 [] := rfl
  rw [h0, retryLoop]
  cases h : attemptBody (att 1) with
  | ok v => simp
  | error e => simp [attemptBody_not_retryable (att 1) e h]

/-- Every run of the pagination loop either returns the envelope of the
incoming accumulator extended, page by page in fetch order, by the items
`collectItems` describes, or returns some fetched non-paginated response
verbatim.  In particular no exception escapes: the result is always a
value. -/
theorem getAllPagesLoop_cases (fetch : Option Int → Except PyExn JVal) :
    ∀ (fuel : Nat) (page : Option Int) (acc : List JVal) (pf fc : Nat),
      (getAllPagesLoop fetch fuel page acc pf fc).result =
          envelope (acc ++ collectItems fetch fuel page) ∨
        ∃ p resp, fetch p = .ok resp ∧ isPaginated resp = false ∧
          (getAllPagesLoop fetch fuel page acc pf fc).result = resp := by
  intro fuel
  induction fuel with
  | zero =>
      intro page acc pf fc
      left
      simp [getAllPagesLoop, collectItems]
  | succ f ih =>
      intro page acc pf fc
      simp only [getAllPagesLoop, collectItems]
      cases hf : fetch page with
      | error e => left; simp [envelope]
      | ok resp =>
          by_cases hp : isPaginated resp = true
          · simp only [hp, if_true]
            cases hi : pyIter (jgetD resp "results" (.jarr [])) with
            | none => left; simp [envelope]
            | some items =>
                by_cases hn : pyFalsy (jget resp "next") = true
                · left; simp [hn]
                · simp only [hn, if_false, Bool.false_eq_true]
                  cases hnxt : jget resp "next" with
                  | none => simp [hnxt, pyFalsy] at hn
                  | some v =>
                      cases v with
                      | jstr url =>
                          cases hnp : nextPageOfUrl url with
                          | none => left; simp [hnp]
                          | some n =>
                              simp only [hnp]
                              rcases ih (some n) (acc ++ items) (pf + 1) (fc + 1) with
                                hL | ⟨p, r2, h1, h2, h3⟩
                              · left
                                rw [hL, List.append_assoc]
                              · right
                                exact ⟨p, r2, h1, h2, h3⟩
                      | jnull => left; rfl
                      | jbool b => left; rfl
                      | jnum m => left; rfl
                      | jarr xs => left; rfl
                      | jobj fs => left; rfl
          · right
            refine ⟨page, resp, hf, ?_, ?_⟩
            · simpa using hp
            · simp [hp]

/-- The final `pages_fetched` counter never exceeds the starting counter
plus the fuel: the loop body runs at most `fuel` more times. -/
theorem getAllPagesLoop_pages_le (fetch : Option Int → Except PyExn JVal) :
    ∀ (fuel : Nat) (page : Option Int) (acc : List JVal) (pf fc : Nat),
      (getAllPagesLoop fetch fuel page acc pf fc).pagesFetched ≤ pf + fuel := by
  intro fuel
  induction fuel with
  | zero => intro page acc pf fc; simp [getAllPagesLoop]
  | succ f ih =>
      intro page acc pf fc
      simp only [getAllPagesLoop]
      cases hf : fetch page with
      | error e => simp
      | ok resp =>
          by_cases hp : isPaginated resp = true
          · simp only [hp, if_true]
            cases hi : pyIter (jgetD resp "results" (.jarr [])) with
            | none => simp
            | some items =>
                by_cases hn : pyFalsy (jget resp "next") = true
                · simp [hn]
                · simp only [hn, if_false, Bool.false_eq_true]
                  cases hnxt : jget resp "next" with
                  | none => simp [hnxt, pyFalsy] at hn
                  | some v =>
                      cases v with
                      | jstr url =>
                          cases hnp : nextPageOfUrl url with
                          | none => simp [hnp]
                          | some n =>
                              simp only [hnp]
                              have := ih (some n) (acc ++ items) (pf + 1) (fc + 1)
                              omega
                      | jnull => simp
                      | jbool b => simp
                      | jnum m => simp
                      | jarr xs => simp
                      | jobj fs => simp
          · simp [hp]

/-- Against `endlessFetch` the loop consumes all its fuel: each iteration
gathers one item and continues to the parsed next page. -/
theorem endlessFetch_loop :
    ∀ (fuel : Nat) (page : Option Int) (acc : List JVal) (pf fc : Nat),
      getAllPagesLoop endlessFetch fuel page acc pf fc =
        ⟨envelope (acc ++ List.replicate fuel (.jnum 7)), pf + fuel, fc + fuel⟩ := by
  intro fuel
  induction fuel with
  | zero => intro page acc pf fc; simp [getAllPagesLoop]
  | succ f ih =>
      intro page acc pf fc
      have hstep : getAllPagesLoop endlessFetch (f + 1) page acc pf fc =
          getAllPagesLoop endlessFetch f (some 2) (acc ++ [.jnum 7]) (pf + 1) (fc + 1) := rfl
      rw [hstep, ih]
      congr 1
      · rw [List.append_assoc]
        rfl
      · omega
      · omega

/-- `acquire` in branch form over the replenished token count. -/
theorem acquire_eq (s : RL) (now : ℚ) :
    acquire s now =
      if replenishedOf s now < 1 then
        (⟨s.requestsPerPeriod, s.period, 0, now⟩,
          (1 - replenishedOf s now) * s.period / s.requestsPerPeriod)
      else (⟨s.requestsPerPeriod, s.period, replenishedOf s now - 1, now⟩, 0) := rfl

/-- The replenished count never exceeds the capacity. -/
theorem replenishedOf_le (s : RL) (now : ℚ) :
    replenishedOf s now ≤ (s.requestsPerPeriod : ℚ) :=
  min_le_left _ _

/-- One `acquire` step always lands in the invariant, whatever the
incoming state and clock reading. -/
theorem acquire_inv (s : RL) (now : ℚ) : rlInv (acquire s now).1 := by
  rw [acquire_eq]
  split_ifs with h
  · exact ⟨le_refl 0, Nat.cast_nonneg _⟩
  · constructor
    · show (0 : ℚ) ≤ replenishedOf s now - 1
      have := not_lt.mp h
      linarith
    · show replenishedOf s now - 1 ≤ (s.requestsPerPeriod : ℚ)
      have := replenishedOf_le s now
      linarith

/-- Every state visited by a run of acquisitions satisfies the invariant,
provided the starting state does. -/
theorem rlStates_inv :
    ∀ (nows : List ℚ) (s : RL), rlInv s → ∀ x ∈ rlStates s nows, rlInv x := by
  intro nows
  induction nows with
  | nil =>
      intro s hs x hx
      simp [rlStates] at hx
      rw [hx]
      exact hs
  | cons now rest ih =>
      intro s hs x hx
      simp only [rlStates, List.mem_cons] at hx
      rcases hx with rfl | hx
      · exact hs
      · exact ih (acquire s now).1 (acquire_inv s now) x hx

/-- C4: every `RateLimiter.acquire` call follows exactly the spec's
token-bucket algorithm — replenish by `elapsed * capacity / period`
capped at the capacity; when the result is below one token, suspend for
exactly `(1 - tokens) * period / capacity` and leave the bucket at 0;
otherwise consume one token with no suspension.  Stated as equality with
the algorithm transcribed from the spec's wording, plus the two branch
behaviours explicitly.  (The positivity hypotheses mark the configured
range; with a zero capacity or period Python would raise
`ZeroDivisionError` where `ℚ` division totalises.) -/
theorem c4_acquire_follows_spec_algorithm (s : RL) (now : ℚ)
    (hcap : 0 < s.requestsPerPeriod) (hper : 0 < s.period) :
    acquire s now = specAcquire s now ∧
    (replenishedOf s now < 1 →
      (acquire s now).1.tokens = 0 ∧
      (acquire s now).2 = (1 - replenishedOf s now) * s.period / s.requestsPerPeriod) ∧
    (1 ≤ replenishedOf s now →
      (acquire s now).1.tokens = replenishedOf s now - 1 ∧
      (acquire s now).2 = 0) := by
  refine ⟨rfl, ?_, ?_⟩
  · intro h
    rw [acquire_eq, if_pos h]
    exact ⟨rfl, rfl⟩
  · intro h
    rw [acquire_eq, if_neg (not_lt.mpr h)]
    exact ⟨rfl, rfl⟩

/-- Witness for C4 at a concrete bucket and clock. -/
theorem c4_acquire_follows_spec_algorithm_witness :
    acquire ⟨2, 1, 2, 0⟩ (1 / 2) = specAcquire ⟨2, 1, 2, 0⟩ (1 / 2) :=
  (c4_acquire_follows_spec_algorithm ⟨2, 1, 2, 0⟩ (1 / 2) (by norm_num) (by norm_num)).1

/-- C5: along every sequence of acquisitions, from the freshly
constructed limiter, every observed state keeps
`0 ≤ tokens ≤ capacity` — whatever the clock readings, including
non-monotone ones. -/
theorem c5_token_bucket_invariant (cap period : Nat) (t0 : ℚ) (nows : List ℚ)
    (hcap : 0 < cap) (hper : 0 < period) :
    ∀ s ∈ rlStates (mkRateLimiter cap period t0) nows, rlInv s := by
  intro s hs
  refine rlStates_inv nows (mkRateLimiter cap period t0) ⟨?_, ?_⟩ s hs
  · exact Nat.cast_nonneg cap
  · exact le_refl _

/-- Witness for C5: the freshly built limiter on one acquisition. -/
theorem c5_token_bucket_invariant_witness :
    rlInv (mkRateLimiter 2 1 0) :=
  c5_token_bucket_invariant 2 1 0 [0] (by norm_num) (by norm_num)
    (mkRateLimiter 2 1 0) (by simp [rlStates])

/-- C6 counterexample: the claim that the lock is never held across a
suspension point is false at a concrete call — with an empty bucket and
no elapsed time, the trace of `acquire` performs its `asyncio.sleep`
between acquiring and releasing the lock (the sleep on line 78 sits
inside `async with self._lock`). -/
theorem c6_lock_across_sleep_counterexample :
    sleepsWhileLocked false (acquireTrace ⟨1, 1, 0, 0⟩ 0) = true := by
  norm_num [acquireTrace, sleepsWhileLocked]

/-- C6 amended: in the sufficient-tokens branch no sleep happens while
the lock is held, but in the insufficient-tokens branch the task sleeps
while still holding the lock, releasing it only after the sleep and the
final bucket update. -/
theorem c6_lock_discipline_amended (s : RL) (now : ℚ) :
    (1 ≤ replenishedOf s now →
      sleepsWhileLocked false (acquireTrace s now) = false) ∧
    (replenishedOf s now < 1 →
      acquireTrace s now =
        [.lockAcquire, .setTokens (replenishedOf s now),
          .sleep ((1 - replenishedOf s now) * s.period / s.requestsPerPeriod),
          .setTokens 0, .lockRelease] ∧
      sleepsWhileLocked false (acquireTrace s now) = true) := by
  have htr : acquireTrace s now =
      if replenishedOf s now < 1 then
        [.lockAcquire, .setTokens (replenishedOf s now),
          .sleep ((1 - replenishedOf s now) * s.period / s.requestsPerPeriod),
          .setTokens 0, .lockRelease]
      else
        [.lockAcquire, .setTokens (replenishedOf s now),
          .setTokens (replenishedOf s now - 1), .lockRelease] := rfl
  constructor
  · intro h
    rw [htr, if_neg (not_lt.mpr h)]
    rfl
  · intro h
    rw [htr, if_pos h]
    exact ⟨rfl, rfl⟩

/-- Witness for the amended C6 at a concrete full-bucket call. -/
theorem c6_lock_discipline_amended_witness :
    sleepsWhileLocked false (acquireTrace ⟨1, 1, 1, 0⟩ 0) = false :=
  (c6_lock_discipline_amended ⟨1, 1, 1, 0⟩ 0).1 (by norm_num [replenishedOf])

/-- C1: the retry claim fails on the code — with `httpx.ConnectError` on
attempts 1 and 2 and a success available on attempt 3, `_make_request`
makes exactly one attempt, performs no backoff sleep, and raises a plain
`VectraAPIError` instead of succeeding after 3 attempts.  The decorator
names `(httpx.ConnectError, httpx.TimeoutException)` as the exceptions to
retry, but both are subclasses of `httpx.RequestError`, so the body's
`except httpx.RequestError` rewraps them as `VectraAPIError` first and
tenacity's predicate (second conjunct) never matches: the declared retry
policy is dead code. -/
theorem c1_transport_failure_not_retried :
    makeRequest c1Attempts =
      ⟨.error (.vectraAPIError "Request error: boom" none none), 1, []⟩ ∧
    retryPred (.vectraAPIError "Request error: boom" none none) = false :=
  ⟨rfl, rfl⟩

/-- C10 counterexample: a 2xx response with JSON content type whose body
does not parse makes `_make_request` raise `json.JSONDecodeError` from
line 203 — an exception that is not an instance of `VectraAPIError`, so a
caller catching `VectraAPIError` misses it. -/
theorem c10_json_decode_error_escapes :
    makeRequest (fun _ => .ok ⟨200, "application/json", "oops", none⟩) =
      ⟨.error .jsonDecodeError, 1, []⟩ ∧
    isVectraAPIErrorInstance .jsonDecodeError = false :=
  ⟨rfl, rfl⟩

/-- Helper for C10: a non-2xx response always produces a raised
`VectraAPIError` instance carrying exactly the response's status code. -/
theorem handleResponse_classified (r : HttpResponse)
    (hs : isSuccessStatus r.status = false) :
    ∃ e, handleResponse r = .error e ∧ isVectraAPIErrorInstance e = true ∧
      pyExnStatus e = some r.status := by
  unfold handleResponse
  split_ifs with h1 h2 h3 h4 h5 h6
  · exact ⟨_, rfl, rfl, by rw [h1]; rfl⟩
  · exact ⟨_, rfl, rfl, by rw [h2]; rfl⟩
  · exact ⟨_, rfl, rfl, by rw [h3]; rfl⟩
  · exact ⟨_, rfl, rfl, by rw [h4]; rfl⟩
  · cases hj : r.jsonBody with
    | none =>
        dsimp only
        exact ⟨_, rfl, rfl, rfl⟩
    | some j =>
        dsimp only
        cases hc : pyContainsMessage j with
        | error u =>
            cases u
            dsimp only
            exact ⟨_, rfl, rfl, rfl⟩
        | ok b =>
            cases b with
            | true =>
                dsimp only
                cases hsub : pySubscriptMessage j with
                | ok v =>
                    dsimp only
                    exact ⟨_, rfl, rfl, rfl⟩
                | error u =>
                    cases u
                    dsimp only
                    exact ⟨_, rfl, rfl, rfl⟩
            | false =>
                dsimp only
                exact ⟨_, rfl, rfl, rfl⟩
  · simp [hs] at h5
  · simp [hs] at h5

/-- C10 amended: `_make_request` finishes on the first attempt, and every
exception it raises is an instance of `VectraAPIError` — carrying the
status code whenever a response was obtained and no status code for a
transport failure — except for one escape outside the hierarchy: the
`json.JSONDecodeError` of a 2xx JSON-content-type response whose body
fails to parse. -/
theorem c10_error_taxonomy_amended (att : Nat → Except HttpxExn HttpResponse) :
    (makeRequest att).result = attemptBody (att 1) ∧
    (∀ e, (makeRequest att).result = .error e →
      isVectraAPIErrorInstance e = true ∨ e = .jsonDecodeError) ∧
    (∀ m, att 1 = .error (.connectError m) →
      (makeRequest att).result = .error (.vectraAPIError ("Request error: " ++ m) none none)) ∧
    (∀ m, att 1 = .error (.timeoutException m) →
      (makeRequest att).result = .error (.vectraAPIError ("Request error: " ++ m) none none)) ∧
    (∀ r, att 1 = .ok r → isSuccessStatus r.status = false →
      ∃ e, (makeRequest att).result = .error e ∧ isVectraAPIErrorInstance e = true ∧
        pyExnStatus e = some r.status) := by
  have hm := makeRequest_result att
  refine ⟨by rw [hm], ?_, ?_, ?_, ?_⟩
  · intro e he
    rw [hm] at he
    cases ha : att 1 with
    | ok r =>
        rw [ha] at he
        exact handleResponse_error_shape r e he
    | error ex =>
        rw [ha] at he
        cases ex <;> (simp only [attemptBody] at he; cases he; left; rfl)
  · intro m hatt
    rw [hm, hatt]
    rfl
  · intro m hatt
    rw [hm, hatt]
    rfl
  · intro r hatt hs
    rw [hm, hatt]
    exact handleResponse_classified r hs

/-- Witness for the amended C10: a connection failure on attempt 1. -/
theorem c10_error_taxonomy_amended_witness :
    (makeRequest (fun _ => .error (.connectError "down"))).result =
      .error (.vectraAPIError "Request error: down" none none) :=
  (c10_error_taxonomy_amended (fun _ => .error (.connectError "down"))).2.2.1 "down" rfl

/-- C3: auto-pagination appends each page's `results` items in order —
the returned envelope holds exactly the concatenation of the fetched
pages' items (`collectItems`), with `count` equal to their number and
`next`/`previous` null — stops when a page's `next` is null, and on the
spec's 3-pages-of-2 scenario returns exactly the 6 items in page order
with `count = 6` (the envelope fields of the general conjuncts are
checked on any item list). -/
theorem c3_pagination_appends_in_order :
    (∀ (fetch : Option Int → Except PyExn JVal) (maxPages : Nat),
      (getAllPages fetch maxPages).result =
          envelope (collectItems fetch maxPages none) ∨
        ∃ p resp, fetch p = .ok resp ∧ isPaginated resp = false ∧
          (getAllPages fetch maxPages).result = resp) ∧
    (∀ xs : List JVal,
      jget (envelope xs) "count" = some (.jnum xs.length) ∧
      jget (envelope xs) "next" = some .jnull ∧
      jget (envelope xs) "previous" = some .jnull ∧
      jget (envelope xs) "results" = some (.jarr xs)) ∧
    (∀ (fetch : Option Int → Except PyExn JVal) (maxPages : Nat) (xs : List JVal),
      0 < maxPages →
      fetch none = .ok (.jobj [("results", .jarr xs), ("next", .jnull)]) →
      getAllPages fetch maxPages = ⟨envelope xs, 1, 1⟩) ∧
    getAllPages fetch3 10 =
      ⟨envelope [.jnum 1, .jnum 2, .jnum 3, .jnum 4, .jnum 5, .jnum 6], 3, 3⟩ ∧
    collectItems fetch3 10 none =
      [.jnum 1, .jnum 2, .jnum 3, .jnum 4, .jnum 5, .jnum 6] := by
  refine ⟨?_, ?_, ?_, rfl, rfl⟩
  · intro fetch maxPages
    rcases getAllPagesLoop_cases fetch maxPages none [] 0 0 with h | h
    · left
      simpa [getAllPages] using h
    · right
      simpa [getAllPages] using h
  · intro xs
    exact ⟨rfl, rfl, rfl, rfl⟩
  · intro fetch maxPages xs hmax hf
    cases maxPages with
    | zero => omega
    | succ k =>
        show getAllPagesLoop fetch (k + 1) none [] 0 0 = ⟨envelope xs, 1, 1⟩
        simp only [getAllPagesLoop]
        rw [hf]
        rfl

/-- Witness for C3 (null-next stop conjunct) at a concrete oracle. -/
theorem c3_pagination_appends_in_order_witness :
    getAllPages (fun _ => .ok (.jobj [("results", .jarr [.jnum 9]), ("next", .jnull)])) 5 =
      ⟨envelope [.jnum 9], 1, 1⟩ :=
  c3_pagination_appends_in_order.2.2.1
    (fun _ => .ok (.jobj [("results", .jarr [.jnum 9]), ("next", .jnull)])) 5 [.jnum 9]
    (by norm_num) rfl

/-- C7: `_get_all_pages` never propagates an exception — a raising fetch
(first page included) or a non-null `next` URL without a parsable `page`
parameter stops pagination, returning the results gathered so far in the
`{count, next, previous, results}` envelope; in general every run returns
either such an envelope or a raw non-paginated passthrough, never an
error. -/
theorem c7_pagination_swallows_failures :
    (∀ (fetch : Option Int → Except PyExn JVal) (maxPages : Nat) (e : PyExn),
      0 < maxPages → fetch none = .error e →
      getAllPages fetch maxPages = ⟨envelope [], 0, 1⟩) ∧
    (∀ (fetch : Option Int → Except PyExn JVal) (maxPages : Nat) (xs : List JVal) (e : PyExn),
      2 ≤ maxPages →
      fetch none = .ok (.jobj [("results", .jarr xs),
        ("next", .jstr "https://a/x?page=2")]) →
      fetch (some 2) = .error e →
      getAllPages fetch maxPages = ⟨envelope xs, 1, 2⟩) ∧
    (∀ (url : String) (xs : List JVal) (maxPages : Nat),
      0 < maxPages → nextPageOfUrl url = none →
      getAllPages (fun _ => .ok (.jobj [("results", .jarr xs), ("next", .jstr url)]))
          maxPages =
        ⟨envelope xs, 1, 1⟩) ∧
    (∀ (fetch : Option Int → Except PyExn JVal) (maxPages : Nat),
      (getAllPages fetch maxPages).result =
          envelope (collectItems fetch maxPages none) ∨
        ∃ p resp, fetch p = .ok resp ∧ isPaginated resp = false ∧
          (getAllPages fetch maxPages).result = resp) := by
  refine ⟨?_, ?_, ?_, ?_⟩
  · intro fetch maxPages e hmax hf
    cases maxPages with
    | zero => omega
    | succ k =>
        show getAllPagesLoop fetch (k + 1) none [] 0 0 = ⟨envelope [], 0, 1⟩
        simp only [getAllPagesLoop]
        rw [hf]
  · intro fetch maxPages xs e hmax h1 h2
    obtain ⟨k, rfl⟩ : ∃ k, maxPages = k + 2 := ⟨maxPages - 2, by omega⟩
    show getAllPagesLoop fetch (k + 2) none [] 0 0 = ⟨envelope xs, 1, 2⟩
    simp only [getAllPagesLoop]
    rw [h1]
    show getAllPagesLoop fetch (k + 1) (some 2) ([] ++ xs) (0 + 1) (0 + 1) =
      ⟨envelope xs, 1, 2⟩
    simp only [getAllPagesLoop]
    rw [h2]
    rfl
  · intro url xs maxPages hmax hurl
    cases maxPages with
    | zero => omega
    | succ k =>
        show getAllPagesLoop
            (fun _ => .ok (.jobj [("results", .jarr xs), ("next", .jstr url)]))
            (k + 1) none [] 0 0 =
          ⟨envelope xs, 1, 1⟩
        show (if url.isEmpty = true then (⟨envelope ([] ++ xs), 0 + 1, 0 + 1⟩ : PagRun)
            else
              match nextPageOfUrl url with
              | some n =>
                  getAllPagesLoop
                    (fun _ => .ok (.jobj [("results", .jarr xs), ("next", .jstr url)]))
                    k (some n) ([] ++ xs) (0 + 1) (0 + 1)
              | none => ⟨envelope ([] ++ xs), 0 + 1, 0 + 1⟩) =
          ⟨envelope xs, 1, 1⟩
        by_cases hemp : url.isEmpty = true
        · rw [if_pos hemp]
          rfl
        · rw [if_neg hemp, hurl]
          rfl
  · intro fetch maxPages
    rcases getAllPagesLoop_cases fetch maxPages none [] 0 0 with h | h
    · left
      simpa [getAllPages] using h
    · right
      simpa [getAllPages] using h

/-- Witness for C7 (first-fetch failure conjunct) at a concrete oracle. -/
theorem c7_pagination_swallows_failures_witness :
    getAllPages (fun _ => .error .retryError) 5 = ⟨envelope [], 0, 1⟩ :=
  c7_pagination_swallows_failures.1 (fun _ => .error .retryError) 5 .retryError
    (by norm_num) rfl

/-- C8: the page loop runs at most `max_pages` iterations, and against an
endpoint whose `next` link never becomes null it stops after exactly
`max_pages` pages, returning the partial aggregate as a plain value. -/
theorem c8_max_pages_termination :
    (∀ (fetch : Option Int → Except PyExn JVal) (maxPages : Nat),
      (getAllPages fetch maxPages).pagesFetched ≤ maxPages) ∧
    (∀ maxPages : Nat,
      getAllPages endlessFetch maxPages =
        ⟨envelope (List.replicate maxPages (.jnum 7)), maxPages, maxPages⟩) := by
  constructor
  · intro fetch maxPages
    have h := getAllPagesLoop_pages_le fetch maxPages none [] 0 0
    simpa [getAllPages] using h
  · intro maxPages
    have h := endlessFetch_loop maxPages none [] 0 0
    simpa [getAllPages] using h

/-- C9: a response that is not a paginated shape — no `results` key, or
not an object at all — is returned unchanged by `_get_all_pages`, with no
envelope, no error and no further fetches. -/
theorem c9_non_paginated_passthrough (fetch : Option Int → Except PyExn JVal)
    (maxPages : Nat) (resp : JVal) (hmax : 0 < maxPages)
    (hf : fetch none = .ok resp) (hshape : isPaginated resp = false) :
    getAllPages fetch maxPages = ⟨resp, 0, 1⟩ := by
  cases maxPages with
  | zero => omega
  | succ k =>
      show getAllPagesLoop fetch (k + 1) none [] 0 0 = ⟨resp, 0, 1⟩
      simp only [getAllPagesLoop]
      rw [hf]
      simp [hshape]

/-- Witness for C9: an object without a `results` key passes through. -/
theorem c9_non_paginated_passthrough_witness :
    getAllPages (fun _ => .ok (.jobj [("detail", .jstr "x")])) 3 =
      ⟨.jobj [("detail", .jstr "x")], 0, 1⟩ :=
  c9_non_paginated_passthrough (fun _ => .ok (.jobj [("detail", .jstr "x")])) 3
    (.jobj [("detail", .jstr "x")]) (by norm_num) rfl rfl

/-- A 2xx status is none of the four specially classified statuses. -/
theorem statusNe_of_success (st : Nat) (h : isSuccessStatus st = true) :
    st ≠ 401 ∧ st ≠ 403 ∧ st ≠ 404 ∧ st ≠ 429 := by
  simp [isSuccessStatus] at h
  omega

/-- C2 counterexample: the claimed classification, formalised as the
spec's `ApiOutcome` mapping (`specClassify`), disagrees with the code's
(`handleResponse`, abstracted by exception class through `codeToSpec`) at
two concrete responses — a 403, which the code raises as
`VectraAuthenticationError` (the same class as 401) rather than a
distinct Forbidden classification, and a 500 whose JSON body lacks a
`message` field, for which the code appends neither the message nor the
raw text. -/
theorem c2_classification_counterexample :
    codeToSpec (handleResponse ⟨403, "application/json", "t", none⟩) ≠
      specClassify ⟨403, "application/json", "t", none⟩ ∧
    codeToSpec (handleResponse ⟨500, "application/json", "raw-body",
        some (.jobj [("detail", .jstr "x")])⟩) ≠
      specClassify ⟨500, "application/json", "raw-body",
        some (.jobj [("detail", .jstr "x")])⟩ := by
  constructor
  · intro h
    injection h with h2
    exact SpecOutcome.noConfusion h2
  · intro h
    injection h with h2
    injection h2 with h3 h4
    exact absurd h4 (by decide)

/-- C2 amended: the status classification of `_make_request` is — 401
`VectraAuthenticationError` ("Authentication failed - check
credentials"); 403 the same class `VectraAuthenticationError` ("Access
forbidden - insufficient permissions"), not a distinct Forbidden class;
404 `VectraNotFoundError`; 429 `VectraRateLimitError`; any other non-2xx
`VectraAPIError` carrying the status code, appending the body's `message`
field when the body is a JSON object containing one, appending the raw
text when the body is not parseable JSON, and appending nothing when the
body is a JSON object without a `message` field; a 2xx with JSON content
type returns the parsed body; a 2xx with other content type returns the
text wrapped under a `data` field. -/
theorem c2_classification_amended (r : HttpResponse) :
    (r.status = 401 → handleResponse r =
      .error (.vectraAuthenticationError "Authentication failed - check credentials" (some 401))) ∧
    (r.status = 403 → handleResponse r =
      .error (.vectraAuthenticationError "Access forbidden - insufficient permissions" (some 403))) ∧
    (r.status = 404 → handleResponse r =
      .error (.vectraNotFoundError "Resource not found" (some 404))) ∧
    (r.status = 429 → handleResponse r =
      .error (.vectraRateLimitError "Rate limit exceeded" (some 429))) ∧
    (r.status ∉ ([401, 403, 404, 429] : List Nat) → isSuccessStatus r.status = false →
      ∀ fs m, r.jsonBody = some (.jobj fs) → jget (.jobj fs) "message" = some (.jstr m) →
        handleResponse r = .error (.vectraAPIError
          ("API request failed with status " ++ toString r.status ++ ": " ++ m)
          (some r.status) (some (.jobj fs)))) ∧
    (r.status ∉ ([401, 403, 404, 429] : List Nat) → isSuccessStatus r.status = false →
      r.jsonBody = none →
        handleResponse r = .error (.vectraAPIError
          ("API request failed with status " ++ toString r.status ++ ": " ++ r.text)
          (some r.status) none)) ∧
    (r.status ∉ ([401, 403, 404, 429] : List Nat) → isSuccessStatus r.status = false →
      ∀ fs, r.jsonBody = some (.jobj fs) → jhasKey fs "message" = false →
        handleResponse r = .error (.vectraAPIError
          ("API request failed with status " ++ toString r.status)
          (some r.status) (some (.jobj fs)))) ∧
    (isSuccessStatus r.status = true → isJsonContentType r.contentType = true →
      ∀ j, r.jsonBody = some j → handleResponse r = .ok j) ∧
    (isSuccessStatus r.status = true → isJsonContentType r.contentType = false →
      handleResponse r = .ok (.jobj [("data", .jstr r.text)])) := by
  refine ⟨?_, ?_, ?_, ?_, ?_, ?_, ?_, ?_, ?_⟩
  · intro h
    simp [handleResponse, h]
  · intro h
    simp [handleResponse, h]
  · intro h
    simp [handleResponse, h]
  · intro h
    simp [handleResponse, h]
  · intro hmem hsucc fs m hbody hmsg
    simp only [List.mem_cons, List.not_mem_nil, or_false, not_or] at hmem
    obtain ⟨n1, n2, n3, n4⟩ := hmem
    have hfind : (fs.find? (fun p => p.1 = "message")).map (·.2) = some (.jstr m) := hmsg
    have hkey : jhasKey fs "message" = true := by
      rcases Option.map_eq_some'.mp hfind with ⟨q, hq, hq2⟩
      have hmem2 := List.mem_of_find?_eq_some hq
      have hpred := List.find?_some hq
      rw [jhasKey, List.any_eq_true]
      exact ⟨q, hmem2, hpred⟩
    have hck : pyContainsMessage (.jobj fs) = .ok true := by
      simp [pyContainsMessage, hkey]
    have hsb : pySubscriptMessage (.jobj fs) = .ok (.jstr m) := by
      simp [pySubscriptMessage, hfind]
    simp [handleResponse, n1, n2, n3, n4, hsucc, hbody, hck, hsb, pyFStr]
  · intro hmem hsucc hbody
    simp only [List.mem_cons, List.not_mem_nil, or_false, not_or] at hmem
    obtain ⟨n1, n2, n3, n4⟩ := hmem
    simp [handleResponse, n1, n2, n3, n4, hsucc, hbody]
  · intro hmem hsucc fs hbody hno
    simp only [List.mem_cons, List.not_mem_nil, or_false, not_or] at hmem
    obtain ⟨n1, n2, n3, n4⟩ := hmem
    have hck : pyContainsMessage (.jobj fs) = .ok false := by
      simp [pyContainsMessage, hno]
    simp [handleResponse, n1, n2, n3, n4, hsucc, hbody, hck]
  · intro hsucc hct j hbody
    obtain ⟨n1, n2, n3, n4⟩ := statusNe_of_success r.status hsucc
    simp [handleResponse, n1, n2, n3, n4, hsucc, hct, hbody]
  · intro hsucc hct
    obtain ⟨n1, n2, n3, n4⟩ := statusNe_of_success r.status hsucc
    simp [handleResponse, n1, n2, n3, n4, hsucc, hct]

/-- Witness for the amended C2 at a concrete 404 response. -/
theorem c2_classification_amended_witness :
    handleResponse ⟨404, "text/plain", "nf", none⟩ =
      .error (.vectraNotFoundError "Resource not found" (some 404)) :=
  (c2_classification_amended ⟨404, "text/plain", "nf", none⟩).2.2.1 rfl

end VectraVerify

